import Mathlib

/-!
Verification of the `waffleController` package
(`src/waffleController/waffleController/waffleControls.py`).

The controller node keeps eight boolean button states, two speed scalars
(`linear_speed`, `angular_speed`) and a derived velocity pair
(`linear_x`, `angular_z`).  Device key events flip button states and rerun
`update_velocities`; a periodic timer republishes the velocity pair.
An outer loop (`run_controller`) locates an input device and supervises the
event stream.

Numeric model: the Python floats are modelled as exact rationals (ℚ).  All
arithmetic in the source is addition/subtraction of the decimal constants
0.1 / 0.2 together with `min`/`max` clamping, which we render exactly.
-/

namespace WaffleController

/-- The eight tracked buttons: the dict keys
`'U','D','L','R','1','2','3','4'` of `self.button_states`. -/
inductive Button where
  | U | D | L | R | B1 | B2 | B3 | B4
  deriving DecidableEq, Repr

/-- `self.button_states`: one boolean per tracked button. -/
@[ext]
structure ButtonStates where
  u : Bool
  d : Bool
  l : Bool
  r : Bool
  b1 : Bool
  b2 : Bool
  b3 : Bool
  b4 : Bool
  deriving DecidableEq, Repr

/-- Write one button's pressed/released value
(`self.button_states[button_name] = bool(event.value)`). -/
def setButton (bs : ButtonStates) : Button → Bool → ButtonStates
  | .U, v => { bs with u := v }
  | .D, v => { bs with d := v }
  | .L, v => { bs with l := v }
  | .R, v => { bs with r := v }
  | .B1, v => { bs with b1 := v }
  | .B2, v => { bs with b2 := v }
  | .B3, v => { bs with b3 := v }
  | .B4, v => { bs with b4 := v }

/-- The mutable fields of `WaffleController` that the mapping core touches. -/
@[ext]
structure ControllerState where
  linear_speed : ℚ
  angular_speed : ℚ
  linear_x : ℚ
  angular_z : ℚ
  buttons : ButtonStates
  deriving DecidableEq, Repr

/-- `__init__`: linear 0.5, angular 1.0, velocities 0, all buttons released. -/
def initState : ControllerState :=
  { linear_speed := 1/2
    angular_speed := 1
    linear_x := 0
    angular_z := 0
    buttons := ⟨false, false, false, false, false, false, false, false⟩ }

/-- `update_velocities` (source lines 57–94), statement by statement:
first `linear_x` from U/D, then `angular_z` from L/R, both read the
speed scalars as they are at entry; then the four speed adjustments run in
source order (Btn1, Btn3, Btn4, Btn2), each conditioned only on the button
being currently pressed. -/
def update_velocities (s : ControllerState) : ControllerState :=
  let lx : ℚ :=
    if s.buttons.u && !s.buttons.d then s.linear_speed
    else if s.buttons.d && !s.buttons.u then -s.linear_speed
    else 0
  let az : ℚ :=
    if s.buttons.l && !s.buttons.r then s.angular_speed
    else if s.buttons.r && !s.buttons.l then -s.angular_speed
    else 0
  let ls1 : ℚ := if s.buttons.b1 then min 1 (s.linear_speed + 1/10) else s.linear_speed
  let ls2 : ℚ := if s.buttons.b3 then max (1/10) (ls1 - 1/10) else ls1
  let as1 : ℚ := if s.buttons.b4 then min 2 (s.angular_speed + 1/5) else s.angular_speed
  let as2 : ℚ := if s.buttons.b2 then max (1/5) (as1 - 1/5) else as1
  { s with linear_x := lx, angular_z := az, linear_speed := ls2, angular_speed := as2 }

/-- evdev event type constant `ecodes.EV_KEY`. -/
def EV_KEY : Nat := 1

/-- A raw evdev input event: `event.type`, `event.code`, `event.value`
(0 = release, 1 = press, 2 = autorepeat). -/
structure InputEvent where
  type : Nat
  code : Nat
  value : Nat
  deriving DecidableEq, Repr

/-- The `button_map` dict of `handle_events`, with the evdev `ecodes`
key constants inlined: `KEY_UP = 103`, `KEY_RIGHT = 106`, `KEY_DOWN = 108`,
`KEY_LEFT = 105`, `KEY_1 = 2`, `KEY_2 = 3`, `KEY_3 = 4`, `KEY_4 = 5`. -/
def button_map (code : Nat) : Option Button :=
  if code = 103 then some .U
  else if code = 106 then some .R
  else if code = 108 then some .D
  else if code = 105 then some .L
  else if code = 2 then some .B1
  else if code = 3 then some .B2
  else if code = 4 then some .B3
  else if code = 5 then some .B4
  else none

/-- Body of the `async for` loop of `handle_events` (source lines 99–117)
for one incoming event: only `EV_KEY` events whose code is in `button_map`
write the button state and rerun `update_velocities`; everything else
leaves the node untouched. -/
def handle_event (s : ControllerState) (e : InputEvent) : ControllerState :=
  if e.type = EV_KEY then
    match button_map e.code with
    | some b =>
        update_velocities { s with buttons := setButton s.buttons b (decide (e.value ≠ 0)) }
    | none => s
  else s

/-- One unit of work on the shared state: either an incoming device event
(which may or may not trigger a recomputation) or a bare
`update_velocities` pass. -/
inductive Step where
  | event : InputEvent → Step
  | recompute : Step

/-- Apply one step to the controller state. -/
def runStep (s : ControllerState) : Step → ControllerState
  | .event e => handle_event s e
  | .recompute => update_velocities s

/-- Run a whole sequence of steps from a starting state. -/
def runTrace (s : ControllerState) (steps : List Step) : ControllerState :=
  steps.foldl runStep s

/-- The U/D truth table as a function of a button snapshot and a given
linear speed value (first `if` chain of `update_velocities`). -/
def linear_x_of (bs : ButtonStates) (v : ℚ) : ℚ :=
  if bs.u && !bs.d then v else if bs.d && !bs.u then -v else 0

/-- The L/R truth table as a function of a button snapshot and a given
angular speed value (second `if` chain of `update_velocities`). -/
def angular_z_of (bs : ButtonStates) (v : ℚ) : ℚ :=
  if bs.l && !bs.r then v else if bs.r && !bs.l then -v else 0

/-- The speed-bounds invariant claimed for `linear_speed` and
`angular_speed`: `[0.1, 1.0]` and `[0.2, 2.0]`. -/
def SpeedsInBounds (s : ControllerState) : Prop :=
  1/10 ≤ s.linear_speed ∧ s.linear_speed ≤ 1 ∧
    1/5 ≤ s.angular_speed ∧ s.angular_speed ≤ 2

/-- The Btn1/Btn3 adjustment stage of `update_velocities` applied to a
linear-speed value. -/
def adjust_linear (bs : ButtonStates) (v : ℚ) : ℚ :=
  let v1 := if bs.b1 then min 1 (v + 1/10) else v
  if bs.b3 then max (1/10) (v1 - 1/10) else v1

/-- The Btn4/Btn2 adjustment stage of `update_velocities` applied to an
angular-speed value. -/
def adjust_angular (bs : ButtonStates) (v : ℚ) : ℚ :=
  let v1 := if bs.b4 then min 2 (v + 1/5) else v
  if bs.b2 then max (1/5) (v1 - 1/5) else v1

lemma update_velocities_buttons (s : ControllerState) :
    (update_velocities s).buttons = s.buttons := rfl

lemma update_velocities_linear_speed (s : ControllerState) :
    (update_velocities s).linear_speed = adjust_linear s.buttons s.linear_speed := rfl

lemma update_velocities_angular_speed (s : ControllerState) :
    (update_velocities s).angular_speed = adjust_angular s.buttons s.angular_speed := rfl

lemma update_velocities_linear_x (s : ControllerState) :
    (update_velocities s).linear_x = linear_x_of s.buttons s.linear_speed := rfl

lemma update_velocities_angular_z (s : ControllerState) :
    (update_velocities s).angular_z = angular_z_of s.buttons s.angular_speed := rfl

/-- A clamped increment stage followed by a clamped decrement stage keeps a
value inside `[lo, cap]`. -/
lemma clamp_stage_bounds (p q : Bool) (lo cap t v : ℚ) (hlo : lo ≤ v)
    (hcap : v ≤ cap) (ht : 0 ≤ t) :
    lo ≤ (if q then max lo ((if p then min cap (v + t) else v) - t)
          else if p then min cap (v + t) else v) ∧
      (if q then max lo ((if p then min cap (v + t) else v) - t)
        else if p then min cap (v + t) else v) ≤ cap := by
  cases p <;> cases q <;>
    simp only [Bool.false_eq_true, if_true, if_false, min_def, max_def] <;>
    (try split_ifs) <;> constructor <;> linarith

lemma adjust_linear_bounds (bs : ButtonStates) (v : ℚ) (h1 : 1/10 ≤ v)
    (h2 : v ≤ 1) : 1/10 ≤ adjust_linear bs v ∧ adjust_linear bs v ≤ 1 :=
  clamp_stage_bounds bs.b1 bs.b3 (1/10) 1 (1/10) v h1 h2 (by norm_num)

lemma adjust_angular_bounds (bs : ButtonStates) (v : ℚ) (h1 : 1/5 ≤ v)
    (h2 : v ≤ 2) : 1/5 ≤ adjust_angular bs v ∧ adjust_angular bs v ≤ 2 :=
  clamp_stage_bounds bs.b4 bs.b2 (1/5) 2 (1/5) v h1 h2 (by norm_num)

lemma speedsInBounds_update (s : ControllerState) (h : SpeedsInBounds s) :
    SpeedsInBounds (update_velocities s) := by
  obtain ⟨h1, h2, h3, h4⟩ := h
  have hl := adjust_linear_bounds s.buttons s.linear_speed h1 h2
  have ha := adjust_angular_bounds s.buttons s.angular_speed h3 h4
  exact ⟨by rw [update_velocities_linear_speed]; exact hl.1,
    by rw [update_velocities_linear_speed]; exact hl.2,
    by rw [update_velocities_angular_speed]; exact ha.1,
    by rw [update_velocities_angular_speed]; exact ha.2⟩

lemma speedsInBounds_handle (s : ControllerState) (e : InputEvent)
    (h : SpeedsInBounds s) : SpeedsInBounds (handle_event s e) := by
  unfold handle_event
  split
  · split
    · exact speedsInBounds_update _ h
    · exact h
  · exact h

lemma speedsInBounds_runStep (s : ControllerState) (st : Step)
    (h : SpeedsInBounds s) : SpeedsInBounds (runStep s st) := by
  cases st with
  | event e => exact speedsInBounds_handle s e h
  | recompute => exact speedsInBounds_update s h

lemma speedsInBounds_runTrace (s : ControllerState) (steps : List Step)
    (h : SpeedsInBounds s) : SpeedsInBounds (runTrace s steps) := by
  induction steps generalizing s with
  | nil => exact h
  | cons st rest ih => exact ih _ (speedsInBounds_runStep s st h)

/-- **C1.** After a recomputation pass, `linear_x` is `+linear_speed` when Up
is held and Down is not, `-linear_speed` when Down is held and Up is not, and
`0` otherwise (in particular when both or neither are held); `angular_z`
follows the same table via Left/Right.  The speeds referred to are the ones at
entry to the pass. -/
theorem C1_velocity_truth_table (s : ControllerState) :
    ((s.buttons.u = true ∧ s.buttons.d = false) →
      (update_velocities s).linear_x = s.linear_speed) ∧
    ((s.buttons.d = true ∧ s.buttons.u = false) →
      (update_velocities s).linear_x = -s.linear_speed) ∧
    (s.buttons.u = s.buttons.d → (update_velocities s).linear_x = 0) ∧
    ((s.buttons.l = true ∧ s.buttons.r = false) →
      (update_velocities s).angular_z = s.angular_speed) ∧
    ((s.buttons.r = true ∧ s.buttons.l = false) →
      (update_velocities s).angular_z = -s.angular_speed) ∧
    (s.buttons.l = s.buttons.r → (update_velocities s).angular_z = 0) := by
  obtain ⟨v, w, x, y, bs⟩ := s
  obtain ⟨u, d, l, r, b1, b2, b3, b4⟩ := bs
  cases u <;> cases d <;> cases l <;> cases r <;>
    simp [update_velocities]

/-- Witness for C1 at a concrete state: Up held, Down released, default
speeds. -/
theorem C1_witness :
    ({ initState with buttons := ⟨true, false, false, false, false, false, false, false⟩
        : ControllerState }.buttons.u = true ∧
      { initState with buttons := ⟨true, false, false, false, false, false, false, false⟩
        : ControllerState }.buttons.d = false) ∧
    (update_velocities
        { initState with
          buttons := ⟨true, false, false, false, false, false, false, false⟩ }).linear_x
      = (1 : ℚ)/2 :=
  ⟨⟨rfl, rfl⟩,
    (C1_velocity_truth_table
      { initState with
        buttons := ⟨true, false, false, false, false, false, false, false⟩ }).1
      ⟨rfl, rfl⟩⟩

/-- **C2.** Starting from the defaults (`linear_speed = 0.5`,
`angular_speed = 1.0`), every sequence of button events and recomputation
passes keeps `linear_speed` in `[0.1, 1.0]` and `angular_speed` in
`[0.2, 2.0]`. -/
theorem C2_speed_bounds (steps : List Step) :
    1/10 ≤ (runTrace initState steps).linear_speed ∧
      (runTrace initState steps).linear_speed ≤ 1 ∧
      1/5 ≤ (runTrace initState steps).angular_speed ∧
      (runTrace initState steps).angular_speed ≤ 2 :=
  speedsInBounds_runTrace initState steps (by norm_num [SpeedsInBounds, initState])

lemma setButton_idem (bs : ButtonStates) (b : Button) (v : Bool) :
    setButton (setButton bs b v) b v = setButton bs b v := by
  cases b <;> rfl

lemma adjust_linear_id (bs : ButtonStates) (v : ℚ) (h1 : bs.b1 = false)
    (h3 : bs.b3 = false) : adjust_linear bs v = v := by
  simp [adjust_linear, h1, h3]

lemma adjust_angular_id (bs : ButtonStates) (v : ℚ) (h2 : bs.b2 = false)
    (h4 : bs.b4 = false) : adjust_angular bs v = v := by
  simp [adjust_angular, h2, h4]

lemma handle_event_recognized (s : ControllerState) (e : InputEvent) (b : Button)
    (ht : e.type = EV_KEY) (hb : button_map e.code = some b) :
    handle_event s e =
      update_velocities
        { s with buttons := setButton s.buttons b (decide (e.value ≠ 0)) } := by
  simp [handle_event, ht, hb]

/-- A second recomputation pass on a state whose adjustment buttons are all
released changes nothing: the speeds are untouched and the velocity pair is
recomputed from the same data. -/
lemma update_velocities_idem (t : ControllerState) (h1 : t.buttons.b1 = false)
    (h2 : t.buttons.b2 = false) (h3 : t.buttons.b3 = false)
    (h4 : t.buttons.b4 = false) :
    update_velocities (update_velocities t) = update_velocities t := by
  have hl : ∀ v : ℚ, adjust_linear t.buttons v = v := fun v =>
    adjust_linear_id _ _ h1 h3
  have ha : ∀ v : ℚ, adjust_angular t.buttons v = v := fun v =>
    adjust_angular_id _ _ h2 h4
  ext <;>
    simp [update_velocities_linear_speed, update_velocities_angular_speed,
      update_velocities_linear_x, update_velocities_angular_z,
      update_velocities_buttons, hl, ha]

/-- **C3 (counterexample).** Delivering the same recognized button event
(`EV_KEY`, code `KEY_1 = 2`, value 1, i.e. Btn1 pressed) twice in a row from
the initial state does not leave the derived values where one delivery put
them: `linear_speed` is 0.7 after two deliveries but 0.6 after one, because
each delivery reruns the level-triggered speed adjustment. -/
theorem C3_counterexample :
    (handle_event (handle_event initState ⟨1, 2, 1⟩) ⟨1, 2, 1⟩).linear_speed ≠
      (handle_event initState ⟨1, 2, 1⟩).linear_speed := by
  norm_num [handle_event, update_velocities, button_map, initState, setButton, EV_KEY,
    min_def, max_def]

/-- **C3 (amended).** Processing a recognized button event twice in a row is
idempotent on the whole controller state provided no speed-adjustment button
(Btn1–Btn4) is held in the state resulting from the first delivery; in
general a repeated delivery re-applies the held speed adjustments. -/
theorem C3_amended_idempotent (s : ControllerState) (e : InputEvent)
    (h1 : (handle_event s e).buttons.b1 = false)
    (h2 : (handle_event s e).buttons.b2 = false)
    (h3 : (handle_event s e).buttons.b3 = false)
    (h4 : (handle_event s e).buttons.b4 = false) :
    handle_event (handle_event s e) e = handle_event s e := by
  by_cases ht : e.type = EV_KEY
  · cases hb : button_map e.code with
    | none => simp [handle_event, ht, hb]
    | some b =>
        rw [handle_event_recognized s e b ht hb] at h1 h2 h3 h4 ⊢
        rw [handle_event_recognized _ e b ht hb]
        simp only [update_velocities_buttons] at h1 h2 h3 h4 ⊢
        rw [setButton_idem]
        exact update_velocities_idem
          { s with buttons := setButton s.buttons b (decide (e.value ≠ 0)) }
          h1 h2 h3 h4
  · simp [handle_event, ht]

/-- Witness for C3 (amended): an Up-press event (`KEY_UP = 103`) from the
initial state leaves no adjustment button held, so a second identical
delivery changes nothing. -/
theorem C3_witness :
    ((handle_event initState ⟨1, 103, 1⟩).buttons.b1 = false ∧
      (handle_event initState ⟨1, 103, 1⟩).buttons.b2 = false ∧
      (handle_event initState ⟨1, 103, 1⟩).buttons.b3 = false ∧
      (handle_event initState ⟨1, 103, 1⟩).buttons.b4 = false) ∧
    handle_event (handle_event initState ⟨1, 103, 1⟩) ⟨1, 103, 1⟩ =
      handle_event initState ⟨1, 103, 1⟩ :=
  ⟨⟨rfl, rfl, rfl, rfl⟩,
    C3_amended_idempotent initState ⟨1, 103, 1⟩ rfl rfl rfl rfl⟩

/-- **C10.** In a single pass, `linear_x` and `angular_z` are computed from
the speeds as they were at entry to the pass, before the same pass's speed
adjustments; a speed adjustment therefore shows up in the velocity only from
the next pass onward (last conjunct: with Up and Btn1 held, the pass outputs
the entry speed while already storing the incremented one, and only the
following pass outputs the incremented speed). -/
theorem C10_velocities_use_entry_speeds (s : ControllerState) :
    (update_velocities s).linear_x = linear_x_of s.buttons s.linear_speed ∧
    (update_velocities s).angular_z = angular_z_of s.buttons s.angular_speed ∧
    (s.buttons.u = true → s.buttons.d = false → s.buttons.b1 = true →
      s.buttons.b3 = false → s.linear_speed + 1/10 ≤ 1 →
      (update_velocities s).linear_x = s.linear_speed ∧
        (update_velocities s).linear_speed = s.linear_speed + 1/10 ∧
        (update_velocities (update_velocities s)).linear_x = s.linear_speed + 1/10) := by
  refine ⟨rfl, rfl, ?_⟩
  intro hu hd hb1 hb3 hle
  have hmin : min 1 (s.linear_speed + 1/10) = s.linear_speed + 1/10 := min_eq_right hle
  refine ⟨?_, ?_, ?_⟩ <;>
    simp [update_velocities, hu, hd, hb1, hb3, hmin] <;> linarith

/-- Witness for C10 at a concrete state: Up and Btn1 held, default speeds. -/
theorem C10_witness :
    (update_velocities
        { initState with
          buttons := ⟨true, false, false, false, true, false, false, false⟩ }).linear_x
        = (1 : ℚ)/2 ∧
      (update_velocities
        { initState with
          buttons := ⟨true, false, false, false, true, false, false, false⟩ }).linear_speed
        = (1 : ℚ)/2 + 1/10 ∧
      (update_velocities (update_velocities
        { initState with
          buttons := ⟨true, false, false, false, true, false, false, false⟩ })).linear_x
        = (1 : ℚ)/2 + 1/10 :=
  (C10_velocities_use_entry_speeds
      { initState with
        buttons := ⟨true, false, false, false, true, false, false, false⟩ }).2.2
    rfl rfl rfl rfl (by norm_num [initState])

lemma adjust_linear_both (bs : ButtonStates) (v : ℚ) (h1 : bs.b1 = true)
    (h3 : bs.b3 = true) :
    adjust_linear bs v = max (1/10) (min 1 (v + 1/10) - 1/10) := by
  simp [adjust_linear, h1, h3]

lemma adjust_angular_both (bs : ButtonStates) (v : ℚ) (h4 : bs.b4 = true)
    (h2 : bs.b2 = true) :
    adjust_angular bs v = max (1/5) (min 2 (v + 1/5) - 1/5) := by
  simp [adjust_angular, h2, h4]

/-- Net effect of a clamped increment followed by a clamped decrement: the
identity below the cap, `cap - t` once the increment saturates. -/
lemma clamp_inc_dec_net (lo cap t v : ℚ) (hlo : lo ≤ v) (hcap : lo ≤ cap - t) :
    (v + t ≤ cap → max lo (min cap (v + t) - t) = v) ∧
      (cap < v + t → max lo (min cap (v + t) - t) = cap - t) := by
  constructor <;> intro h <;> simp [min_def, max_def] <;> split_ifs <;> linarith

/-- **C4 (counterexample).** With both Btn1 and Btn3 held and
`linear_speed = 1.0` (its upper bound, reachable by holding Btn1), one
recomputation pass does not leave the speed unchanged: the increment clamps
at 1.0 and the decrement then drops the speed to 0.9. -/
theorem C4_counterexample :
    (update_velocities
        { linear_speed := 1, angular_speed := 1, linear_x := 0, angular_z := 0,
          buttons := ⟨false, false, false, false, true, false, true, false⟩ }).linear_speed ≠
      ({ linear_speed := 1, angular_speed := 1, linear_x := 0, angular_z := 0,
          buttons := ⟨false, false, false, false, true, false, true, false⟩ }
        : ControllerState).linear_speed := by
  norm_num [update_velocities, min_def, max_def]

/-- **C4 (amended).** When both adjustment buttons of one axis are held, one
pass applies both adjustments; the net effect on that axis's speed is zero
exactly as long as the increment does not hit the upper clamp, and otherwise
the pass nets one step down from the cap (0.9 for linear, 1.8 for angular).
The lower-bound hypotheses hold for every reachable speed by C2. -/
theorem C4_amended_tie_net_effect (s : ControllerState) :
    (s.buttons.b1 = true → s.buttons.b3 = true → 1/10 ≤ s.linear_speed →
      ((s.linear_speed + 1/10 ≤ 1 →
          (update_velocities s).linear_speed = s.linear_speed) ∧
        (1 < s.linear_speed + 1/10 →
          (update_velocities s).linear_speed = 1 - 1/10))) ∧
    (s.buttons.b4 = true → s.buttons.b2 = true → 1/5 ≤ s.angular_speed →
      ((s.angular_speed + 1/5 ≤ 2 →
          (update_velocities s).angular_speed = s.angular_speed) ∧
        (2 < s.angular_speed + 1/5 →
          (update_velocities s).angular_speed = 2 - 1/5))) := by
  constructor
  · intro hb1 hb3 hlo
    rw [update_velocities_linear_speed, adjust_linear_both _ _ hb1 hb3]
    exact clamp_inc_dec_net (1/10) 1 (1/10) s.linear_speed hlo (by norm_num)
  · intro hb4 hb2 hlo
    rw [update_velocities_angular_speed, adjust_angular_both _ _ hb4 hb2]
    exact clamp_inc_dec_net (1/5) 2 (1/5) s.angular_speed hlo (by norm_num)

/-- Witness for C4 (amended) at a concrete state: all four adjustment buttons
held, speeds strictly below their caps, so both axes are unchanged by the
pass. -/
theorem C4_witness :
    (update_velocities
        { linear_speed := 1/2, angular_speed := 1, linear_x := 0, angular_z := 0,
          buttons := ⟨false, false, false, false, true, true, true, true⟩ }).linear_speed
        = (1 : ℚ)/2 ∧
      (update_velocities
        { linear_speed := 1/2, angular_speed := 1, linear_x := 0, angular_z := 0,
          buttons := ⟨false, false, false, false, true, true, true, true⟩ }).angular_speed
        = (1 : ℚ) :=
  ⟨((C4_amended_tie_net_effect
        { linear_speed := 1/2, angular_speed := 1, linear_x := 0, angular_z := 0,
          buttons := ⟨false, false, false, false, true, true, true, true⟩ }).1
      rfl rfl (by norm_num)).1 (by norm_num),
    ((C4_amended_tie_net_effect
        { linear_speed := 1/2, angular_speed := 1, linear_x := 0, angular_z := 0,
          buttons := ⟨false, false, false, false, true, true, true, true⟩ }).2
      rfl rfl (by norm_num)).1 (by norm_num)⟩

/-- A state in which only Btn1 is held, with `linear_speed = v` and the other
fields at their defaults; the shape traversed by spec scenario 3. -/
def b1State (v : ℚ) : ControllerState :=
  { linear_speed := v, angular_speed := 1, linear_x := 0, angular_z := 0,
    buttons := ⟨false, false, false, false, true, false, false, false⟩ }

lemma update_b1State (v : ℚ) :
    update_velocities (b1State v) = b1State (min 1 (v + 1/10)) := rfl

lemma iterate_b1State_fixed (m : ℕ) :
    update_velocities^[m] (b1State 1) = b1State 1 := by
  induction m with
  | zero => rfl
  | succ k ih =>
      rw [Function.iterate_succ_apply', ih, update_b1State]
      norm_num [min_def]

/-- **C5 (counterexample).** With Btn1 and Btn3 both held and
`linear_speed = 0.5`, the pass does not set `linear_speed` to
`min(1.0, 0.5 + 0.1) = 0.6`: the Btn3 decrement in the same pass brings it
back to 0.5. -/
theorem C5_counterexample :
    (update_velocities
        { linear_speed := 1/2, angular_speed := 1, linear_x := 0, angular_z := 0,
          buttons := ⟨false, false, false, false, true, false, true, false⟩ }).linear_speed ≠
      min 1 ((1 : ℚ)/2 + 1/10) := by
  norm_num [update_velocities, min_def, max_def]

/-- **C5 (amended).** Speed adjustment is level-triggered: whenever Btn1 is
held and its opposing button Btn3 is not, a recomputation pass sets
`linear_speed` to `min(1.0, linear_speed + 0.1)`, regardless of which
button's event triggered the pass (the state carries no edge information at
all); symmetrically for Btn3, Btn4 and Btn2.  With Btn1 alone held from
`linear_speed = 0.5`, six passes produce 0.6, 0.7, 0.8, 0.9, 1.0, 1.0, and
the speed stays clamped at 1.0 from the fifth pass on. -/
theorem C5_amended_level_triggered :
    (∀ s : ControllerState, s.buttons.b1 = true → s.buttons.b3 = false →
        (update_velocities s).linear_speed = min 1 (s.linear_speed + 1/10)) ∧
    (∀ s : ControllerState, s.buttons.b3 = true → s.buttons.b1 = false →
        (update_velocities s).linear_speed = max (1/10) (s.linear_speed - 1/10)) ∧
    (∀ s : ControllerState, s.buttons.b4 = true → s.buttons.b2 = false →
        (update_velocities s).angular_speed = min 2 (s.angular_speed + 1/5)) ∧
    (∀ s : ControllerState, s.buttons.b2 = true → s.buttons.b4 = false →
        (update_velocities s).angular_speed = max (1/5) (s.angular_speed - 1/5)) ∧
    ((update_velocities^[1] (b1State (1/2))).linear_speed = 3/5 ∧
      (update_velocities^[2] (b1State (1/2))).linear_speed = 7/10 ∧
      (update_velocities^[3] (b1State (1/2))).linear_speed = 4/5 ∧
      (update_velocities^[4] (b1State (1/2))).linear_speed = 9/10 ∧
      (update_velocities^[5] (b1State (1/2))).linear_speed = 1 ∧
      ∀ n, 5 ≤ n → (update_velocities^[n] (b1State (1/2))).linear_speed = 1) := by
  have e1 : update_velocities^[1] (b1State (1/2)) = b1State (3/5) := by
    rw [Function.iterate_one, update_b1State]; norm_num [min_def]
  have e2 : update_velocities^[2] (b1State (1/2)) = b1State (7/10) := by
    rw [show (2 : ℕ) = 1 + 1 from rfl, Function.iterate_succ_apply', e1,
      update_b1State]
    norm_num [min_def]
  have e3 : update_velocities^[3] (b1State (1/2)) = b1State (4/5) := by
    rw [show (3 : ℕ) = 2 + 1 from rfl, Function.iterate_succ_apply', e2,
      update_b1State]
    norm_num [min_def]
  have e4 : update_velocities^[4] (b1State (1/2)) = b1State (9/10) := by
    rw [show (4 : ℕ) = 3 + 1 from rfl, Function.iterate_succ_apply', e3,
      update_b1State]
    norm_num [min_def]
  have e5 : update_velocities^[5] (b1State (1/2)) = b1State 1 := by
    rw [show (5 : ℕ) = 4 + 1 from rfl, Function.iterate_succ_apply', e4,
      update_b1State]
    norm_num [min_def]
  refine ⟨?_, ?_, ?_, ?_, ?_, ?_, ?_, ?_, ?_, ?_⟩
  · intro s hb1 hb3
    rw [update_velocities_linear_speed]
    simp [adjust_linear, hb1, hb3]
  · intro s hb3 hb1
    rw [update_velocities_linear_speed]
    simp [adjust_linear, hb1, hb3]
  · intro s hb4 hb2
    rw [update_velocities_angular_speed]
    simp [adjust_angular, hb4, hb2]
  · intro s hb2 hb4
    rw [update_velocities_angular_speed]
    simp [adjust_angular, hb4, hb2]
  · rw [e1]; rfl
  · rw [e2]; rfl
  · rw [e3]; rfl
  · rw [e4]; rfl
  · rw [e5]; rfl
  · intro n hn
    obtain ⟨m, rfl⟩ := Nat.exists_eq_add_of_le hn
    rw [add_comm, Function.iterate_add_apply, e5, iterate_b1State_fixed]
    rfl

/-- Witness for C5 (amended): the first conjunct applied at the concrete
state with Btn1 alone held and `linear_speed = 0.5`. -/
theorem C5_witness :
    (b1State (1/2)).buttons.b1 = true ∧ (b1State (1/2)).buttons.b3 = false ∧
      (update_velocities (b1State (1/2))).linear_speed = min 1 ((1 : ℚ)/2 + 1/10) :=
  ⟨rfl, rfl, C5_amended_level_triggered.1 (b1State (1/2)) rfl rfl⟩

/-- **C6.** An incoming event whose key code is not one of the 8 recognized
codes (`KEY_UP/RIGHT/DOWN/LEFT/1/2/3/4`) mutates nothing: button states,
speeds and velocities are all exactly as before, and no recomputation runs
(the state is returned unchanged as a whole). -/
theorem C6_unrecognized_ignored (s : ControllerState) (e : InputEvent)
    (h : e.code ∉ ([103, 106, 108, 105, 2, 3, 4, 5] : List Nat)) :
    handle_event s e = s := by
  have hb : button_map e.code = none := by
    simp only [List.mem_cons, List.not_mem_nil, or_false, not_or] at h
    obtain ⟨n1, n2, n3, n4, n5, n6, n7, n8⟩ := h
    simp [button_map, n1, n2, n3, n4, n5, n6, n7, n8]
  simp [handle_event, hb]

/-- Witness for C6: an `EV_KEY` event with the unrecognized code 999 leaves
the initial state untouched. -/
theorem C6_witness :
    (999 : Nat) ∉ ([103, 106, 108, 105, 2, 3, 4, 5] : List Nat) ∧
      handle_event initState ⟨1, 999, 1⟩ = initState :=
  ⟨by decide, C6_unrecognized_ignored initState ⟨1, 999, 1⟩ (by decide)⟩

/-- An enumerated input device as `find_controller` sees it: its filesystem
path (`device.path`) and its reported name (`device.name`), the latter
modelled as its character list so that case folding and substring search are
explicit. -/
structure Device where
  path : String
  name : List Char
  deriving DecidableEq, Repr

/-- Python's `needle in hay` prefix test helper: does `p` occur at the start
of `l`? -/
def isPrefixOfChars : List Char → List Char → Bool
  | [], _ => true
  | _ :: _, [] => false
  | c :: p, d :: l => c = d && isPrefixOfChars p l

/-- Python's substring operator `needle in hay` on character lists. -/
def containsSubstr (hay needle : List Char) : Bool :=
  if isPrefixOfChars needle hay then true
  else
    match hay with
    | [] => false
    | _ :: t => containsSubstr t needle

/-- The match test of `find_controller`:
`"controller" in device.name.lower() or "gamepad" in device.name.lower()`. -/
def name_matches (name : List Char) : Bool :=
  containsSubstr (name.map Char.toLower) "controller".toList ||
    containsSubstr (name.map Char.toLower) "gamepad".toList

/-- `find_controller` (source lines 47–55): walk the enumerated devices in
order and return the path of the first whose lowercased name contains
`"controller"` or `"gamepad"`; `None` if none does. -/
def find_controller : List Device → Option String
  | [] => none
  | d :: rest => if name_matches d.name then some d.path else find_controller rest

lemma isPrefixOfChars_iff : ∀ p l : List Char, isPrefixOfChars p l = true ↔ p <+: l
  | [], l => by simp [isPrefixOfChars]
  | c :: p, [] => by simp [isPrefixOfChars]
  | c :: p, d :: l => by
      simp [isPrefixOfChars, isPrefixOfChars_iff p l, List.cons_prefix_cons]

lemma containsSubstr_iff : ∀ hay needle : List Char,
    containsSubstr hay needle = true ↔ needle <:+: hay
  | [], needle => by
      rw [containsSubstr]
      simp [isPrefixOfChars_iff]
  | a :: t, needle => by
      rw [containsSubstr]
      by_cases hp : isPrefixOfChars needle (a :: t) = true
      · simp [hp, List.infix_cons_iff, (isPrefixOfChars_iff needle (a :: t)).mp hp]
      · rw [if_neg hp, containsSubstr_iff t needle, List.infix_cons_iff]
        simp only [isPrefixOfChars_iff] at hp
        simp [hp]

/-- The specification's match notion: the lowercased name has `"controller"`
or `"gamepad"` as a contiguous substring. -/
def MatchesSpec (name : List Char) : Prop :=
  "controller".toList <:+: name.map Char.toLower ∨
    "gamepad".toList <:+: name.map Char.toLower

lemma find_controller_cons (d : Device) (rest : List Device) :
    find_controller (d :: rest) =
      if name_matches d.name then some d.path else find_controller rest := rfl

lemma name_matches_iff (name : List Char) :
    name_matches name = true ↔ MatchesSpec name := by
  simp [name_matches, MatchesSpec, containsSubstr_iff]

/-- **C8.** `find_controller` returns `none` exactly when no enumerated
device's name matches (case-insensitive substring `"controller"` or
`"gamepad"`), and when it returns a path it is the path of the first
matching device in enumeration order: the device list splits as
`pre ++ d :: post` with `d` matching, `d`'s path returned, and nothing in
`pre` matching. -/
theorem C8_find_controller_first_match (devices : List Device) :
    (find_controller devices = none ↔ ∀ d ∈ devices, ¬ MatchesSpec d.name) ∧
    (∀ p, find_controller devices = some p →
      ∃ pre d post, devices = pre ++ d :: post ∧ MatchesSpec d.name ∧
        d.path = p ∧ ∀ e ∈ pre, ¬ MatchesSpec e.name) := by
  induction devices with
  | nil => simp [find_controller]
  | cons d rest ih =>
      by_cases hm : name_matches d.name = true
      · refine ⟨?_, ?_⟩
        · rw [find_controller_cons, if_pos hm]
          simp [(name_matches_iff d.name).mp hm]
        · intro p hp
          rw [find_controller_cons, if_pos hm, Option.some.injEq] at hp
          exact ⟨[], d, rest, by simp, (name_matches_iff d.name).mp hm, hp, by simp⟩
      · have hm' : ¬ MatchesSpec d.name := fun hc =>
          hm ((name_matches_iff d.name).mpr hc)
        refine ⟨?_, ?_⟩
        · rw [find_controller_cons, if_neg hm, ih.1]
          simp [hm']
        · intro p hp
          rw [find_controller_cons, if_neg hm] at hp
          obtain ⟨pre, d2, post, heq, hmd2, hpath, hpre⟩ := ih.2 p hp
          refine ⟨d :: pre, d2, post, by simp [heq], hmd2, hpath, ?_⟩
          intro e he
          rcases List.mem_cons.mp he with rfl | he2
          · exact hm'
          · exact hpre e he2

/-- Witness for C8: on a concrete enumeration where the first device does not
match and the second does, the path of the second device is returned and the
characterization instantiates. -/
theorem C8_witness :
    ∃ pre d post,
      ([⟨"/dev/input/event0", "Apple Keyboard".toList⟩,
        ⟨"/dev/input/event1", "USB GamePad".toList⟩,
        ⟨"/dev/input/event2", "Other Controller".toList⟩] : List Device) =
          pre ++ d :: post ∧
        MatchesSpec d.name ∧ d.path = "/dev/input/event1" ∧
        ∀ e ∈ pre, ¬ MatchesSpec e.name :=
  (C8_find_controller_first_match
      [⟨"/dev/input/event0", "Apple Keyboard".toList⟩,
        ⟨"/dev/input/event1", "USB GamePad".toList⟩,
        ⟨"/dev/input/event2", "Other Controller".toList⟩]).2
    "/dev/input/event1" (by decide)

/-- Python-level faults that can cross the `try`/`except Exception`
boundary of `run_controller`. -/
inductive PyExn where
  | attributeError : PyExn
  | deviceFault : PyExn
  deriving DecidableEq, Repr

/-- Modelled from the external `rclpy` package (ROS 2): the `rclpy` module
defines no top-level `sleep` function (unlike ROS 1's `rospy.sleep`), so
evaluating `rclpy.sleep(...)` raises `AttributeError` at the attribute
lookup, before any waiting can happen. -/
def rclpy_sleep (_secs : ℚ) : Except PyExn Unit := .error .attributeError

/-- What the environment presents to one iteration of the supervision loop:
either `find_controller` finds no device, or a device is found and its event
stream ends with the given result (`.ok` if `asyncio.run` returns, `.error`
if connecting or reading raises). -/
inductive LocateOutcome where
  | notFound : LocateOutcome
  | found : Except PyExn Unit → LocateOutcome

/-- Outcome of one execution of the `while True:` body: either the loop goes
around again, or the iteration ends in an exception no handler catches, which
terminates the loop (and with it the controller thread). -/
inductive IterResult where
  | next : IterResult
  | dies : PyExn → IterResult
  deriving DecidableEq, Repr

/-- The `except Exception` handler of `run_controller` (source lines
131–133): log the error, then call `rclpy.sleep(1.0)`.  The handler body is
not inside any `try`, so an exception raised there escapes the loop. -/
def run_handler : IterResult :=
  match rclpy_sleep 1 with
  | .ok _ => .next
  | .error e => .dies e

/-- One iteration of the `while True:` loop of `run_controller` (source
lines 119–133).  In the no-device branch the warning is logged and
`rclpy.sleep(5.0)` runs inside the `try`, so whatever it raises reaches the
handler; a fault from the device path reaches the handler the same way; if
the event stream returns normally the loop simply goes around. -/
def run_controller_iter (env : LocateOutcome) : IterResult :=
  match env with
  | .notFound =>
      match rclpy_sleep 5 with
      | .ok _ => .next
      | .error _ => run_handler
  | .found r =>
      match r with
      | .ok _ => .next
      | .error _ => run_handler

/-- The supervision loop run over a finite prefix of environment outcomes:
`none` if the loop is still running after consuming them all, `some e` if an
uncaught exception `e` escaped the loop at some iteration. -/
def run_controller : List LocateOutcome → Option PyExn
  | [] => none
  | env :: rest =>
      match run_controller_iter env with
      | .next => run_controller rest
      | .dies e => some e

/-- **C7.** Contrary to the claim, the supervision loop does not back off and
retry: on the very first iteration in which no device is found — and equally
on the first device fault — the backoff call `rclpy.sleep` raises
`AttributeError` (the function does not exist in `rclpy`); the handler's own
`rclpy.sleep(1.0)` then raises again outside any `try`, and that exception
escapes the `while True:` loop, terminating the controller thread. -/
theorem C7_loop_dies_on_first_backoff :
    run_controller [LocateOutcome.notFound] = some PyExn.attributeError ∧
      run_controller [LocateOutcome.found (Except.error PyExn.deviceFault)] =
        some PyExn.attributeError :=
  ⟨rfl, rfl⟩

end WaffleController
